import Mathlib

/-!
Shallow embedding of the `lighter` repository's step-dispatch and logging
protocol (`src/lighter/system.py`) and CLI config handling
(`src/lighter/cli.py`), with theorems settling the specification claims.

Tensor-like values are abstracted by a type parameter `V`; mappings that
Python represents as dicts are embedded as association lists in insertion
order, and exceptions as `Except` errors.
-/

namespace Lighter

/-- Execution mode enum (`lighter.utils.types.Mode`); values are the strings
`train`, `val`, `test`, `predict` used in log-record names. -/
inductive Mode where
| train
| val
| test
| predict
deriving DecidableEq

/-- The string value of a mode, as interpolated into log-record names. -/
def Mode.str : Mode → String
| Mode.train => "train"
| Mode.val => "val"
| Mode.test => "test"
| Mode.predict => "predict"

/-- A raw per-batch mapping as produced by a dataloader: a Python dict,
decomposed into the three recognized keys (`none` when the key is absent)
plus the list of any other keys it contains. -/
structure RawBatch (V : Type) where
  input : Option V
  target : Option V
  id : Option V
  extra : List String
deriving DecidableEq

/-- The structured batch produced by validation: `input` is required,
`target` and `id` default to `none` when not provided. -/
structure Batch (V : Type) where
  input : V
  target : Option V
  id : Option V
deriving DecidableEq

/-- Modelled from the spec: the `Batch` type lives in `lighter/utils/types`,
which is not under src. Per spec section 4.1 its constructor accepts exactly
the keys `id`, `input`, `target`, requires `input`, and rejects any other
keyword; on failure it raises with a message (the exact wording of the inner
TypeError/ValueError is immaterial to the claims, which constrain only the
wrapper message added by `System._step`). -/
def Batch.construct {V : Type} (raw : RawBatch V) : Except String (Batch V) :=
  if raw.extra ≠ [] then
    Except.error ("got an unexpected keyword argument " ++ String.intercalate ", " raw.extra)
  else
    match raw.input with
    | none => Except.error "missing required argument: input"
    | some i => Except.ok (Batch.mk i raw.target raw.id)

/-- The error raised when batch validation fails (`System._step` re-raises
the underlying TypeError/ValueError with a schema-naming message). -/
structure BatchError where
  message : String
deriving DecidableEq

/-- The schema-naming text prepended by `System._step` when `Batch(**batch)`
fails (src/lighter/system.py line 135). -/
def schemaMessage : String :=
  "Batch must be a dict with keys: \x27input\x27, \x27target\x27 (optional), \x27id\x27 (optional)."

/-- Batch validation as performed by `System._step` lines 131-135: construct
a `Batch` from the raw mapping, re-raising any failure with the
schema-naming message. -/
def validateBatch {V : Type} (raw : RawBatch V) : Except BatchError (Batch V) :=
  match Batch.construct raw with
  | Except.error e => Except.error (BatchError.mk (schemaMessage ++ "\nError: " ++ e))
  | Except.ok b => Except.ok b

/-- The raw mapping a validated batch corresponds to: its three fields under
their keys and nothing else. -/
def Batch.toRaw {V : Type} (b : Batch V) : RawBatch V :=
  RawBatch.mk (some b.input) b.target b.id []

/-- A loss value: Python returns either a scalar tensor or a dict of named
sub-losses from the criterion. -/
inductive Loss (V : Type) where
| scalar (v : V)
| dict (entries : List (String × V))
deriving DecidableEq

/-- One optimizer parameter group: its learning rate and optional
momentum/beta hyperparameters. -/
structure ParamGroup (V : Type) where
  lr : V
  momentum : Option V
  betas : Option (V × V)
deriving DecidableEq

/-- A torch optimizer, reduced to the `param_groups` list that
`System.learning_rate` and `get_optimizer_stats` inspect. -/
structure Optimizer (V : Type) where
  param_groups : List (ParamGroup V)
deriving DecidableEq

/-- Modelled from the spec: `get_optimizer_stats` lives in
`lighter/utils/misc.py`, which is not under src. Per spec section 4.3 it
reports the learning rate and momentum/beta terms per parameter group,
suffixing the group index when there is more than one group. -/
def get_optimizer_stats {V : Type} (opt : Optimizer V) : List (String × V) :=
  opt.param_groups.enum.flatMap fun gi =>
    let suffix := if opt.param_groups.length > 1 then "/group" ++ toString gi.1 else ""
    ("optimizer/lr" ++ suffix, gi.2.lr)
      :: ((match gi.2.momentum with
           | some m => [("optimizer/momentum" ++ suffix, m)]
           | none => [])
          ++ (match gi.2.betas with
              | some b => [("optimizer/beta1" ++ suffix, b.1), ("optimizer/beta2" ++ suffix, b.2)]
              | none => []))

/-- A record emitted through `self.log`: its name, value, and the
`on_step`/`on_epoch`/`sync_dist` flags passed by `System._log`. -/
structure LogRecord (V : Type) where
  name : String
  value : V
  onStep : Bool
  onEpoch : Bool
  syncDist : Bool
deriving DecidableEq

/-- `System._log` (src/lighter/system.py lines 214-223): logs one key-value
pair with `sync_dist` set to `on_epoch`. -/
def logOne {V : Type} (name : String) (value : V) (on_step on_epoch : Bool) : LogRecord V :=
  LogRecord.mk name value on_step on_epoch on_epoch

/-- The System, reduced to what `_step`, `_log_stats` and `learning_rate`
consult: the model forward, the optional inferer and criterion, per-mode
metric collections, whether `trainer.logger` is configured, and the
optimizer. The criterion takes `input`, `pred`, `target`; a metric
collection takes `pred`, `target` and returns its named results. -/
structure System (V : Type) where
  model : V → V
  inferer : Option (V → V)
  criterion : Option (V → V → Option V → Loss V)
  metrics : Mode → Option (V → Option V → List (String × V))
  hasLogger : Bool
  optimizer : Optimizer V

/-- `System._log_stats` (src/lighter/system.py lines 181-212): no-op without
a logger; otherwise emits step/epoch records for the loss (per sub-loss when
dict-valued), step/epoch records per metric, and, in train mode on batch 0,
the optimizer stats on-epoch. -/
def logStats {V : Type} (sys : System V) (loss : Option (Loss V))
    (metrics : Option (List (String × V))) (mode : Mode) (batch_idx : Nat) :
    List (LogRecord V) :=
  if sys.hasLogger = false then []
  else
    (match loss with
     | none => []
     | some (Loss.scalar v) =>
         [logOne (mode.str ++ "/loss/step") v true false,
          logOne (mode.str ++ "/loss/epoch") v false true]
     | some (Loss.dict es) =>
         es.flatMap fun p =>
           [logOne (mode.str ++ "/loss/" ++ p.1 ++ "/step") p.2 true false,
            logOne (mode.str ++ "/loss/" ++ p.1 ++ "/epoch") p.2 false true])
    ++ (match metrics with
        | none => []
        | some ms =>
            ms.flatMap fun p =>
              [logOne (mode.str ++ "/metrics/" ++ p.1 ++ "/step") p.2 true false,
               logOne (mode.str ++ "/metrics/" ++ p.1 ++ "/epoch") p.2 false true])
    ++ (if mode = Mode.train ∧ batch_idx = 0 then
          (get_optimizer_stats sys.optimizer).map fun p =>
            logOne (mode.str ++ "/" ++ p.1) p.2 false true
        else [])

/-- Errors `System._step` can raise: the wrapped batch-validation failure,
the TypeError from invoking a `None` criterion, and the ValueError for a
dict loss lacking a `total` key. -/
inductive StepError where
| invalidBatch (message : String)
| criterionNone
| missingTotal (message : String)
deriving DecidableEq

/-- The message of the ValueError raised for a dict loss without a `total`
key (src/lighter/system.py lines 163-166). -/
def totalMessage : String :=
  "The loss dictionary must include a \x27total\x27 key that combines all sublosses. " ++
  "Example: \x7b\x27total\x27: combined_loss, \x27subloss1\x27: loss1, ...\x7d"

/-- The non-predict return dict of `_step` (lines 172-179). -/
structure StepResult (V : Type) where
  loss : Option V
  metrics : Option (List (String × V))
  input : V
  target : Option V
  pred : V
  id : Option V
deriving DecidableEq

/-- What a step returns: the predict-mode dict `{pred, id}` or the full
result dict. -/
inductive StepReturn (V : Type) where
| predictOut (pred : V) (id : Option V)
| result (r : StepResult V)
deriving DecidableEq

/-- The keys of the returned dict, in the order the dict literal builds
them. -/
def StepReturn.keys {V : Type} : StepReturn V → List String
| StepReturn.predictOut _ _ => ["pred", "id"]
| StepReturn.result _ => ["loss", "metrics", "input", "target", "pred", "id"]

/-- The prediction of `_step` lines 140-144: use the inferer when one is
configured and the mode is val/test/predict, the model otherwise. -/
def computePred {V : Type} (sys : System V) (mode : Mode) (input : V) : V :=
  match sys.inferer with
  | some inf =>
      if mode = Mode.val ∨ mode = Mode.test ∨ mode = Mode.predict then inf input
      else sys.model input
  | none => sys.model input

/-- The loss of `_step` lines 150-154: `None` outside train/val, otherwise
the criterion applied to input/pred/target; calling a `None` criterion is
Python's TypeError. -/
def computeLoss {V : Type} (sys : System V) (mode : Mode) (input pred : V)
    (target : Option V) : Except StepError (Option (Loss V)) :=
  if mode = Mode.train ∨ mode = Mode.val then
    match sys.criterion with
    | none => Except.error StepError.criterionNone
    | some c => Except.ok (some (c input pred target))
  else Except.ok none

/-- The metrics of `_step` lines 156-159: `None` when the mode has no metric
collection, its named results otherwise. -/
def computeMetrics {V : Type} (sys : System V) (mode : Mode) (pred : V)
    (target : Option V) : Option (List (String × V)) :=
  match sys.metrics mode with
  | none => none
  | some m => some (m pred target)

/-- Whether the computed loss is a dict lacking a `total` key (line 162). -/
def lossMissingTotal {V : Type} : Option (Loss V) → Bool
| some (Loss.dict es) => (es.lookup "total").isNone
| _ => false

/-- The scalar placed in the returned `loss` field (line 173):
`loss["total"]` when the loss is a dict, the loss itself otherwise. -/
def lossScalar {V : Type} : Option (Loss V) → Option V
| some (Loss.dict es) => es.lookup "total"
| some (Loss.scalar v) => some v
| none => none

/-- `System._step` (src/lighter/system.py lines 118-179): validate the
batch, compute the prediction, return `{pred, id}` in predict mode, else
compute loss and metrics, reject a dict loss without `total`, log the
stats, and return the result dict. The emitted log records are returned
alongside the result; an error return carries none, mirroring that a raise
aborts before (or instead of) logging. -/
def step {V : Type} (sys : System V) (raw : RawBatch V) (batch_idx : Nat) (mode : Mode) :
    Except StepError (StepReturn V × List (LogRecord V)) :=
  match validateBatch raw with
  | Except.error e => Except.error (StepError.invalidBatch e.message)
  | Except.ok b =>
    let pred := computePred sys mode b.input
    if mode = Mode.predict then
      Except.ok (StepReturn.predictOut pred b.id, [])
    else
      match computeLoss sys mode b.input pred b.target with
      | Except.error e => Except.error e
      | Except.ok loss =>
        let metrics := computeMetrics sys mode pred b.target
        if lossMissingTotal loss then
          Except.error (StepError.missingTotal totalMessage)
        else
          Except.ok (StepReturn.result
              (StepResult.mk (lossScalar loss) metrics b.input b.target pred b.id),
            logStats sys loss metrics mode batch_idx)

/-- Errors of the `learning_rate` property: the multiple-parameter-group
ValueError, and Python's IndexError on an optimizer with no groups. -/
inductive LRError where
| multiGroup (message : String)
| indexError
deriving DecidableEq

/-- The message of the ValueError raised by the `learning_rate` property
when the optimizer has several parameter groups (lines 234 and 246). -/
def lrMessage : String :=
  "The learning rate is not available when there are multiple optimizer parameter groups."

/-- The `learning_rate` property getter (lines 225-235). -/
def learning_rate_get {V : Type} (opt : Optimizer V) : Except LRError V :=
  if opt.param_groups.length > 1 then Except.error (LRError.multiGroup lrMessage)
  else
    match opt.param_groups with
    | [] => Except.error LRError.indexError
    | g :: _ => Except.ok g.lr

/-- The `learning_rate` property setter (lines 237-247): returns the updated
optimizer. -/
def learning_rate_set {V : Type} (opt : Optimizer V) (value : V) :
    Except LRError (Optimizer V) :=
  if opt.param_groups.length > 1 then Except.error (LRError.multiGroup lrMessage)
  else
    match opt.param_groups with
    | [] => Except.error LRError.indexError
    | g :: rest => Except.ok (Optimizer.mk (ParamGroup.mk value g.momentum g.betas :: rest))

/-- A parsed YAML config file, reduced to the only key
`run_trainer_method` inspects: its optional `project` path. -/
structure Config where
  project : Option String
deriving DecidableEq

/-- Observable effects of `run_trainer_method`. -/
inductive Event where
| importProject (path : String)
| logError (message : String)
| exitProcess
| runTrainer (name : String)
deriving DecidableEq

/-- The error logged when a second config file declares `project`
(src/lighter/cli.py line 41). -/
def projectError : String := "`project` must be specified in one config only."

/-- The config loop of `run_trainer_method` (src/lighter/cli.py lines
32-44): walk the config files tracking whether a project was already
imported; a second `project` declaration logs one error and exits. Returns
the emitted events and whether the process exited. -/
def processConfigs : List Config → Bool → List Event × Bool
| [], _ => ([], false)
| c :: rest, imported =>
  match c.project with
  | none => processConfigs rest imported
  | some p =>
    if imported then ([Event.logError projectError, Event.exitProcess], true)
    else
      let r := processConfigs rest true
      (Event.importProject p :: r.1, r.2)

/-- `run_trainer_method` (src/lighter/cli.py lines 24-46): process the
config files when `config_file` was passed, then — unless the process
exited — run the Trainer method. -/
def run_trainer_method (name : String) (config_file : Option (List Config)) : List Event :=
  match config_file with
  | none => [Event.runTrainer name]
  | some configs =>
    let r := processConfigs configs false
    if r.2 then r.1 else r.1 ++ [Event.runTrainer name]

/-! ## Concrete instances used by witnesses -/

/-- A System with no inferer, no criterion, no metrics, a logger, and a
single-group optimizer. -/
def sampleSystem : System Nat :=
  System.mk (fun x => x) none none (fun _ => none) true
    (Optimizer.mk [ParamGroup.mk 1 none none])

/-- A raw batch with input and target. -/
def wRaw : RawBatch Nat := RawBatch.mk (some 1) (some 2) none []

/-- The batch `wRaw` validates to. -/
def wBatch : Batch Nat := Batch.mk 1 (some 2) none

/-! ## Theorems -/

/-- C2: a raw batch missing `input`, or containing any key other than
`id`/`input`/`target`, fails validation with an error whose message starts
with the schema-naming text; a batch with `input` present and no extra keys
validates and round-trips unchanged. -/
theorem batch_validation_schema {V : Type} (raw : RawBatch V) :
    ((raw.input = none ∨ raw.extra ≠ []) →
      ∃ rest, validateBatch raw = Except.error (BatchError.mk (schemaMessage ++ rest)))
    ∧ (∀ i, raw.input = some i → raw.extra = [] →
      validateBatch raw = Except.ok (Batch.mk i raw.target raw.id)
      ∧ Batch.toRaw (Batch.mk i raw.target raw.id) = raw) := by
  constructor
  · intro h
    by_cases he : raw.extra = []
    · rcases h with h | h
      · exact ⟨"\nError: " ++ "missing required argument: input",
          by simp [validateBatch, Batch.construct, he, h, String.append_assoc]⟩
      · exact absurd he h
    · exact ⟨"\nError: " ++ ("got an unexpected keyword argument "
          ++ String.intercalate ", " raw.extra),
        by simp [validateBatch, Batch.construct, he, String.append_assoc]⟩
  · intro i hi he
    refine ⟨by simp [validateBatch, Batch.construct, he, hi], ?_⟩
    cases raw
    simp_all [Batch.toRaw]

/-- Witness for C2 at concrete batches: `{}` is rejected with the
schema-naming message; `{input, target}` validates and round-trips. -/
theorem batch_validation_schema_witness :
    (∃ rest, validateBatch (RawBatch.mk (none : Option Nat) none none [])
        = Except.error (BatchError.mk (schemaMessage ++ rest)))
    ∧ (validateBatch wRaw = Except.ok wBatch ∧ Batch.toRaw wBatch = wRaw) :=
  ⟨(batch_validation_schema (RawBatch.mk (none : Option Nat) none none [])).1 (Or.inl rfl),
   (batch_validation_schema wRaw).2 1 rfl rfl⟩

/-- C7: the batch validator is idempotent — re-validating the raw form of an
accepted batch succeeds with the identical structure (side-effect freedom
holds by construction: `validateBatch` is a pure function). -/
theorem validate_batch_idempotent {V : Type} (raw : RawBatch V) (b : Batch V)
    (h : validateBatch raw = Except.ok b) :
    validateBatch (Batch.toRaw b) = Except.ok b := by
  cases b
  simp [validateBatch, Batch.construct, Batch.toRaw]

/-- Witness for C7: re-validating the validated `wRaw` returns it
identically. -/
theorem validate_batch_idempotent_witness :
    validateBatch wRaw = Except.ok wBatch
    ∧ validateBatch (Batch.toRaw wBatch) = Except.ok wBatch :=
  ⟨rfl, validate_batch_idempotent wRaw wBatch rfl⟩

/-- C8: with more than one parameter group, reading and writing
`learning_rate` both fail with the multi-group error (the optimizer is
untouched: the setter returns no updated optimizer); with exactly one
group, reading returns that group's `lr` and writing replaces it. -/
theorem learning_rate_multigroup {V : Type} (opt : Optimizer V) :
    (opt.param_groups.length > 1 →
      learning_rate_get opt = Except.error (LRError.multiGroup lrMessage)
      ∧ ∀ v, learning_rate_set opt v = Except.error (LRError.multiGroup lrMessage))
    ∧ (∀ g, opt.param_groups = [g] →
      learning_rate_get opt = Except.ok g.lr
      ∧ ∀ v, learning_rate_set opt v
          = Except.ok (Optimizer.mk [ParamGroup.mk v g.momentum g.betas])) := by
  constructor
  · intro h
    exact ⟨by simp [learning_rate_get, h], fun v => by simp [learning_rate_set, h]⟩
  · intro g hg
    exact ⟨by simp [learning_rate_get, hg], fun v => by simp [learning_rate_set, hg]⟩

/-- Witness for C8: a two-group optimizer rejects the read; a one-group
optimizer serves it. -/
theorem learning_rate_multigroup_witness :
    ((Optimizer.mk [ParamGroup.mk (1 : Nat) none none, ParamGroup.mk 2 none none]).param_groups.length > 1
      ∧ learning_rate_get (Optimizer.mk [ParamGroup.mk (1 : Nat) none none, ParamGroup.mk 2 none none])
          = Except.error (LRError.multiGroup lrMessage))
    ∧ learning_rate_get (Optimizer.mk [ParamGroup.mk (3 : Nat) none none]) = Except.ok 3 :=
  ⟨⟨by decide,
    ((learning_rate_multigroup (Optimizer.mk [ParamGroup.mk (1 : Nat) none none, ParamGroup.mk 2 none none])).1
      (by decide)).1⟩,
   ((learning_rate_multigroup (Optimizer.mk [ParamGroup.mk (3 : Nat) none none])).2
      (ParamGroup.mk 3 none none) rfl).1⟩

/-- After a project has been imported, the config loop either finishes
silently (no further `project` declarations) or logs the duplicate error
and exits at the next declaration. -/
theorem processConfigs_imported (configs : List Config) :
    processConfigs configs true
      = if configs.filterMap Config.project = [] then ([], false)
        else ([Event.logError projectError, Event.exitProcess], true) := by
  induction configs with
  | nil => simp [processConfigs]
  | cons c rest ih =>
    cases hc : c.project with
    | none => simpa [processConfigs, hc, List.filterMap_cons] using ih
    | some p => simp [processConfigs, hc, List.filterMap_cons]

/-- Characterization of the config loop: no `project` declaration imports
nothing; one imports it; two or more import the first, log the duplicate
error once and exit. -/
theorem processConfigs_char (configs : List Config) :
    processConfigs configs false
      = match configs.filterMap Config.project with
        | [] => ([], false)
        | [p] => ([Event.importProject p], false)
        | p :: _ :: _ =>
            ([Event.importProject p, Event.logError projectError, Event.exitProcess], true) := by
  induction configs with
  | nil => simp [processConfigs]
  | cons c rest ih =>
    cases hc : c.project with
    | none => simpa [processConfigs, hc, List.filterMap_cons] using ih
    | some p =>
      simp only [processConfigs, hc, List.filterMap_cons, if_neg Bool.false_ne_true,
        processConfigs_imported]
      cases hrest : rest.filterMap Config.project with
      | nil => simp [processConfigs_imported, hrest]
      | cons q qs => simp [processConfigs_imported, hrest]

/-- C9: with two or more config files declaring `project`,
`run_trainer_method` emits exactly one logged error, ends by exiting the
process, and never reaches the Trainer call; with at most one declaration,
the project is imported at most once and the Trainer method runs. -/
theorem cli_single_project_only (name : String) (configs : List Config) :
    (2 ≤ (configs.filterMap Config.project).length →
      ((run_trainer_method name (some configs)).filter
          (fun e => match e with | Event.logError _ => true | _ => false)).length = 1
      ∧ Event.runTrainer name ∉ run_trainer_method name (some configs)
      ∧ (run_trainer_method name (some configs)).getLast? = some Event.exitProcess)
    ∧ ((configs.filterMap Config.project).length ≤ 1 →
      ((run_trainer_method name (some configs)).filter
          (fun e => match e with | Event.importProject _ => true | _ => false)).length ≤ 1
      ∧ Event.runTrainer name ∈ run_trainer_method name (some configs)) := by
  constructor
  · intro h2
    match hps : configs.filterMap Config.project with
    | [] => rw [hps] at h2; simp at h2
    | [p] => rw [hps] at h2; simp at h2
    | p :: q :: ps =>
      simp [run_trainer_method, processConfigs_char, hps]
  · intro h1
    match hps : configs.filterMap Config.project with
    | [] => simp [run_trainer_method, processConfigs_char, hps]
    | [p] => simp [run_trainer_method, processConfigs_char, hps]
    | p :: q :: ps => rw [hps] at h1; simp at h1

/-- Witness for C9: two configs both declaring `project` yield one error and
an exit with no Trainer call; a single declaration runs the Trainer. -/
theorem cli_single_project_only_witness :
    (2 ≤ ([Config.mk (some "a"), Config.mk (some "b")].filterMap Config.project).length
      ∧ Event.runTrainer "fit"
          ∉ run_trainer_method "fit" (some [Config.mk (some "a"), Config.mk (some "b")]))
    ∧ Event.runTrainer "fit" ∈ run_trainer_method "fit" (some [Config.mk (some "a")]) :=
  ⟨⟨by decide,
    ((cli_single_project_only "fit" [Config.mk (some "a"), Config.mk (some "b")]).1
      (by decide)).2.1⟩,
   ((cli_single_project_only "fit" [Config.mk (some "a")]).2 (by decide)).2⟩

/-- C1: a predict-mode step on any valid batch — target supplied or not —
returns the dict with exactly the keys `pred` and `id` and emits no log
records; the predict branch returns before the loss and metric computations
and before `_log_stats`, so no loss is computed or logged. -/
theorem predict_step_only_pred_id {V : Type} (sys : System V) (raw : RawBatch V)
    (idx : Nat) (b : Batch V) (hb : validateBatch raw = Except.ok b) :
    step sys raw idx Mode.predict
      = Except.ok (StepReturn.predictOut (computePred sys Mode.predict b.input) b.id, [])
    ∧ StepReturn.keys (StepReturn.predictOut (computePred sys Mode.predict b.input) b.id)
      = ["pred", "id"] := by
  refine ⟨?_, rfl⟩
  simp [step, hb]

/-- Witness for C1: a predict step on a batch that does supply a target
still returns only `{pred, id}` and logs nothing. -/
theorem predict_step_only_pred_id_witness :
    validateBatch wRaw = Except.ok wBatch
    ∧ step sampleSystem wRaw 0 Mode.predict
        = Except.ok (StepReturn.predictOut (computePred sampleSystem Mode.predict 1) none, []) :=
  ⟨rfl, (predict_step_only_pred_id sampleSystem wRaw 0 wBatch rfl).1⟩

/-- C10: in train or val mode the criterion is invoked unconditionally, so a
System constructed with `criterion = None` fails the step (Python`s
TypeError from calling `None`) instead of returning a result with a null
loss. -/
theorem criterion_required_in_train_val {V : Type} (sys : System V) (raw : RawBatch V)
    (idx : Nat) (mode : Mode) (b : Batch V)
    (hb : validateBatch raw = Except.ok b)
    (hm : mode = Mode.train ∨ mode = Mode.val)
    (hc : sys.criterion = none) :
    step sys raw idx mode = Except.error StepError.criterionNone := by
  rcases hm with hm | hm <;> subst hm <;> simp [step, hb, computeLoss, hc]

/-- Witness for C10: `sampleSystem` has no criterion, and its train-mode
step fails. -/
theorem criterion_required_in_train_val_witness :
    validateBatch wRaw = Except.ok wBatch
    ∧ (Mode.train = Mode.train ∨ Mode.train = Mode.val)
    ∧ sampleSystem.criterion = none
    ∧ step sampleSystem wRaw 0 Mode.train = Except.error StepError.criterionNone :=
  ⟨rfl, Or.inl rfl, rfl,
   criterion_required_in_train_val sampleSystem wRaw 0 Mode.train wBatch rfl (Or.inl rfl) rfl⟩

/-- C3: when the criterion produces a dict loss without a `total` key, the
step fails with the `total`-naming ValueError; the error return carries no
log records, because the raise occurs before `_log_stats` is invoked. The
second conjunct shows the message names the missing `total` key. -/
theorem dict_loss_missing_total_fails {V : Type} (sys : System V) (raw : RawBatch V)
    (idx : Nat) (mode : Mode) (b : Batch V) (c : V → V → Option V → Loss V)
    (es : List (String × V))
    (hb : validateBatch raw = Except.ok b)
    (hm : mode = Mode.train ∨ mode = Mode.val)
    (hc : sys.criterion = some c)
    (hes : c b.input (computePred sys mode b.input) b.target = Loss.dict es)
    (htot : es.lookup "total" = none) :
    step sys raw idx mode = Except.error (StepError.missingTotal totalMessage)
    ∧ ∃ pre post, totalMessage = pre ++ "total" ++ post := by
  constructor
  · rcases hm with hm | hm <;> subst hm <;>
      simp [step, hb, computeLoss, hc, hes, lossMissingTotal, htot]
  · exact ⟨"The loss dictionary must include a \x27", "\x27 key that combines all sublosses. "
      ++ "Example: \x7b\x27total\x27: combined_loss, \x27subloss1\x27: loss1, ...\x7d", by decide⟩

/-- A System whose criterion returns a dict loss with no `total` key. -/
def wDictSystem : System Nat :=
  System.mk (fun x => x) none (some (fun _ _ _ => Loss.dict [("aux", 2)])) (fun _ => none) true
    (Optimizer.mk [ParamGroup.mk 1 none none])

/-- Witness for C3: a train step whose dict loss lacks `total` fails with
the `total`-naming error. -/
theorem dict_loss_missing_total_fails_witness :
    ([(("aux" : String), (2 : Nat))].lookup "total" = none)
    ∧ step wDictSystem wRaw 0 Mode.train = Except.error (StepError.missingTotal totalMessage) :=
  ⟨by decide,
   (dict_loss_missing_total_fails wDictSystem wRaw 0 Mode.train wBatch
      (fun _ _ _ => Loss.dict [("aux", 2)]) [("aux", 2)]
      rfl (Or.inl rfl) rfl rfl (by decide)).1⟩

/-- Inversion of a successful non-predict step: the computed loss passed the
`total` check and the result dict's fields are the computed values. -/
theorem step_ok_result_inv {V : Type} (sys : System V) (raw : RawBatch V)
    (idx : Nat) (mode : Mode) (b : Batch V) (r : StepResult V) (logs : List (LogRecord V))
    (hb : validateBatch raw = Except.ok b) (hmp : ¬ mode = Mode.predict)
    (h : step sys raw idx mode = Except.ok (StepReturn.result r, logs)) :
    ∃ loss, computeLoss sys mode b.input (computePred sys mode b.input) b.target = Except.ok loss
      ∧ lossMissingTotal loss = false
      ∧ r = StepResult.mk (lossScalar loss)
          (computeMetrics sys mode (computePred sys mode b.input) b.target)
          b.input b.target (computePred sys mode b.input) b.id := by
  simp only [step, hb, if_neg hmp] at h
  cases hcl : computeLoss sys mode b.input (computePred sys mode b.input) b.target with
  | error e => rw [hcl] at h; simp at h
  | ok loss =>
    rw [hcl] at h
    by_cases hmt : lossMissingTotal loss = true
    · simp [hmt] at h
    · simp only [Bool.not_eq_true] at hmt
      simp only [hmt, Bool.false_eq_true, if_false, Except.ok.injEq, Prod.mk.injEq,
        StepReturn.result.injEq] at h
      exact ⟨loss, rfl, hmt, h.1.symm⟩

/-- C4: for a non-predict step that returns a result, the `loss` field is
the `total` entry when the computed loss is a dict (necessarily containing
`total`), the scalar itself when the loss is a scalar, and always null in
test mode. -/
theorem step_loss_field_spec {V : Type} (sys : System V) (raw : RawBatch V)
    (idx : Nat) (mode : Mode) (b : Batch V) (r : StepResult V) (logs : List (LogRecord V))
    (hb : validateBatch raw = Except.ok b) (hmp : ¬ mode = Mode.predict)
    (h : step sys raw idx mode = Except.ok (StepReturn.result r, logs)) :
    (mode = Mode.test → r.loss = none)
    ∧ (∀ v, computeLoss sys mode b.input (computePred sys mode b.input) b.target
          = Except.ok (some (Loss.scalar v)) → r.loss = some v)
    ∧ (∀ es, computeLoss sys mode b.input (computePred sys mode b.input) b.target
          = Except.ok (some (Loss.dict es)) →
        ∃ v, es.lookup "total" = some v ∧ r.loss = some v) := by
  obtain ⟨loss, hcl, hmt, hr⟩ := step_ok_result_inv sys raw idx mode b r logs hb hmp h
  subst hr
  refine ⟨?_, ?_, ?_⟩
  · intro ht
    subst ht
    simp only [computeLoss] at hcl
    simp at hcl
    simp [← hcl, lossScalar]
  · intro v heq
    rw [hcl] at heq
    simp at heq
    subst heq
    simp [lossScalar]
  · intro es heq
    rw [hcl] at heq
    simp at heq
    subst heq
    simp only [lossMissingTotal, Option.isNone_eq_false_iff, Option.isSome_iff_exists] at hmt
    obtain ⟨v, hv⟩ := hmt
    exact ⟨v, hv, by simp [lossScalar, hv]⟩

/-- A System with a scalar criterion (input + pred) and no metrics. -/
def wScalarSystem : System Nat :=
  System.mk (fun x => x) none (some (fun i p _ => Loss.scalar (i + p))) (fun _ => none) true
    (Optimizer.mk [ParamGroup.mk 1 none none])

/-- The result dict of `wScalarSystem`'s train step on `wRaw`. -/
def wResult : StepResult Nat := StepResult.mk (some 2) none 1 (some 2) 1 none

/-- The records that step logs. -/
def wLogs : List (LogRecord Nat) :=
  [logOne "train/loss/step" 2 true false, logOne "train/loss/epoch" 2 false true]

/-- Witness for C4: a concrete train step with scalar loss 2 returns
`loss = some 2`. -/
theorem step_loss_field_spec_witness :
    step wScalarSystem wRaw 1 Mode.train = Except.ok (StepReturn.result wResult, wLogs)
    ∧ wResult.loss = some 2 := by
  have hstep : step wScalarSystem wRaw 1 Mode.train
      = Except.ok (StepReturn.result wResult, wLogs) := rfl
  exact ⟨hstep,
    (step_loss_field_spec wScalarSystem wRaw 1 Mode.train wBatch wResult wLogs rfl
      (by decide) hstep).2.1 2 rfl⟩

/-- C5: with a logger configured, and away from the train-mode first batch
(where C6's optimizer stats are appended), the emitted records are exactly
the `{mode}/loss/step|epoch` pair for a scalar loss, that pair per named
sub-loss under `{mode}/loss/{name}/` for a dict loss, and the pair per
metric under `{mode}/metrics/{name}/`. -/
theorem log_stats_record_names {V : Type} (sys : System V) (loss : Option (Loss V))
    (metrics : Option (List (String × V))) (mode : Mode) (idx : Nat)
    (hl : sys.hasLogger = true) (h0 : ¬(mode = Mode.train ∧ idx = 0)) :
    logStats sys loss metrics mode idx =
      (match loss with
       | none => []
       | some (Loss.scalar v) =>
           [logOne (mode.str ++ "/loss/step") v true false,
            logOne (mode.str ++ "/loss/epoch") v false true]
       | some (Loss.dict es) =>
           es.flatMap fun p =>
             [logOne (mode.str ++ "/loss/" ++ p.1 ++ "/step") p.2 true false,
              logOne (mode.str ++ "/loss/" ++ p.1 ++ "/epoch") p.2 false true])
      ++ (match metrics with
          | none => []
          | some ms =>
              ms.flatMap fun p =>
                [logOne (mode.str ++ "/metrics/" ++ p.1 ++ "/step") p.2 true false,
                 logOne (mode.str ++ "/metrics/" ++ p.1 ++ "/epoch") p.2 false true]) := by
  simp [logStats, hl, h0]

/-- Witness for C5: a scalar loss and one metric in val mode produce the
four expected records. -/
theorem log_stats_record_names_witness :
    sampleSystem.hasLogger = true
    ∧ logStats sampleSystem (some (Loss.scalar 5)) (some [("acc", 7)]) Mode.val 3
      = [logOne (Mode.str Mode.val ++ "/loss/step") 5 true false,
         logOne (Mode.str Mode.val ++ "/loss/epoch") 5 false true,
         logOne (Mode.str Mode.val ++ "/metrics/" ++ "acc" ++ "/step") 7 true false,
         logOne (Mode.str Mode.val ++ "/metrics/" ++ "acc" ++ "/epoch") 7 false true] := by
  refine ⟨rfl, ?_⟩
  have h := log_stats_record_names sampleSystem (some (Loss.scalar 5)) (some [("acc", 7)])
    Mode.val 3 rfl (by decide)
  simpa using h

/-- C6: the stats logger is a silent no-op without a logger backend; every
record it emits has `sync_dist` equal to `on_epoch` (step-level records are
unsynchronized, epoch-level ones synchronized); and relative to any other
batch index, train mode at batch index 0 emits exactly the additional
optimizer stats, synchronized (`on_epoch`), while other modes emit the same
records at index 0 as at any index. -/
theorem log_stats_noop_sync_optimizer {V : Type} (sys : System V) (loss : Option (Loss V))
    (metrics : Option (List (String × V))) (mode : Mode) (idx : Nat) :
    (sys.hasLogger = false → logStats sys loss metrics mode idx = [])
    ∧ (∀ r ∈ logStats sys loss metrics mode idx,
        r.syncDist = r.onEpoch ∧ (r.onStep = true → r.syncDist = false))
    ∧ (sys.hasLogger = true → ∀ k, ¬ k = 0 →
        (logStats sys loss metrics Mode.train 0
          = logStats sys loss metrics Mode.train k
            ++ (get_optimizer_stats sys.optimizer).map
                 (fun p => logOne (Mode.str Mode.train ++ "/" ++ p.1) p.2 false true))
        ∧ ∀ m, ¬ m = Mode.train → logStats sys loss metrics m 0 = logStats sys loss metrics m k) := by
  refine ⟨fun hl => by simp [logStats, hl], ?_, fun hl k hk => ⟨?_, fun m hm => ?_⟩⟩
  · intro r hr
    rcases loss with _ | (v | es) <;> rcases metrics with _ | ms <;>
      cases hlog : sys.hasLogger <;>
      by_cases h0 : mode = Mode.train ∧ idx = 0 <;>
      simp [logStats, hlog, h0, logOne] at hr <;>
      aesop
  · simp [logStats, hl, hk]
  · simp [logStats, hl, hm]

/-- Witness for C6: on `sampleSystem`, the train-mode batch-0 records are
the batch-1 records plus the optimizer stats. -/
theorem log_stats_noop_sync_optimizer_witness :
    sampleSystem.hasLogger = true ∧ ¬ (1 : Nat) = 0
    ∧ logStats sampleSystem (some (Loss.scalar 5)) none Mode.train 0
      = logStats sampleSystem (some (Loss.scalar 5)) none Mode.train 1
        ++ (get_optimizer_stats sampleSystem.optimizer).map
             (fun p => logOne (Mode.str Mode.train ++ "/" ++ p.1) p.2 false true) :=
  ⟨rfl, by decide,
   ((log_stats_noop_sync_optimizer sampleSystem (some (Loss.scalar 5)) none Mode.train 0).2.2
      rfl 1 (by decide)).1⟩

end Lighter
